import Mathlib

/-!
Verification of the backoff-decorator library (src/backoff.ts, most recent
variant): the exponential delay generator `exponentialGenerator` and the
retry driver `retry`.

JavaScript numbers are modelled as rationals (`ℚ`); `number | undefined`
parameters as `Option ℚ`.  JavaScript numeric truthiness (`x ?`) is `x ≠ 0`
on a present value.  `Math.round` is rounding half towards positive
infinity, `⌊x + 1/2⌋`.  `Math.random()` draws are passed in explicitly as a
rational `r` (one draw per pull of the generator).
-/

namespace Backoff

/-- JavaScript `Math.round`: round half up, `⌊x + 1/2⌋`, as a rational. -/
def jsRound (x : ℚ) : ℚ := ((⌊x + 1/2⌋ : ℤ) : ℚ)

/-- JavaScript numeric truthiness of a `number | undefined` value:
`undefined` and `0` are falsy, every other number is truthy. -/
def truthy : Option ℚ → Bool
  | none => false
  | some x => decide (x ≠ 0)

/-- The contradicting-parameter fixup at the top of `exponentialGenerator`:
`if (minValue && maxValue && minValue > maxValue) { minValue = maxValue; }`. -/
def effectiveMin (maxValue minValue : Option ℚ) : Option ℚ :=
  if truthy minValue && truthy maxValue && decide (maxValue.getD 0 < minValue.getD 0) then
    maxValue
  else
    minValue

/-- `value = maxValue ? Math.min(maxValue, value) : value`. -/
def clampMax (maxValue : Option ℚ) (v : ℚ) : ℚ :=
  if truthy maxValue then min (maxValue.getD 0) v else v

/-- `value = minValue ? Math.max(minValue, value) : value`. -/
def clampMin (minValue : Option ℚ) (v : ℚ) : ℚ :=
  if truthy minValue then max (minValue.getD 0) v else v

/-- The deterministic (pre-jitter) value of the `n`-th pull of
`exponentialGenerator`: `factor * base ** n`, clamped by the ceiling and
then by the (fixed-up) floor. -/
def preJitterValue (base factor : ℚ) (maxValue minValue : Option ℚ) (n : ℕ) : ℚ :=
  clampMin (effectiveMin maxValue minValue) (clampMax maxValue (factor * base ^ n))

/-- The `jitter` argument of `exponentialGenerator`:
`boolean | number | undefined`. -/
inductive JitterParam where
  | undef : JitterParam
  | bool (b : Bool) : JitterParam
  | num (j : ℚ) : JitterParam

/-- The jitter step of `exponentialGenerator`, given the `Math.random()`
draw `r` for this pull: `jitter === true` gives full jitter
`Math.round(Math.random() * value)`; a number `j` with `0 <= j <= 1` gives
partial jitter `Math.round((1 - j * Math.random()) * value)`; anything
else leaves the value unchanged. -/
def applyJitter (jitter : JitterParam) (r : ℚ) (v : ℚ) : ℚ :=
  match jitter with
  | .bool true => jsRound (r * v)
  | .num j => if 0 ≤ j ∧ j ≤ 1 then jsRound ((1 - j * r) * v) else v
  | _ => v

/-- The value of the `n`-th pull (n = 0, 1, 2, ...) of
`exponentialGenerator(base, factor, maxValue, minValue, jitter)`, where `r`
is the `Math.random()` draw made at that pull (unused when no jitter
applies). -/
def exponentialGenerator (base factor : ℚ) (maxValue minValue : Option ℚ)
    (jitter : JitterParam) (r : ℚ) (n : ℕ) : ℚ :=
  applyJitter jitter r (preJitterValue base factor maxValue minValue n)

/-!
The retry driver.  A call to `retry` is modelled by its observable trace
(target invocations, `emit` calls, `sleepFunction` calls, in order) plus a
terminal outcome.  The target function is modelled as `ℕ → Except ε α`,
giving the outcome of each successive invocation (index 0 is the first
attempt); its arguments are an opaque list `args` passed unchanged to every
invocation and to the predicate.  `canEmit` models `thisArg && thisArg.emit`
being truthy.  Randomness for jittered delays is supplied as a stream
`rand : ℕ → ℚ` of `Math.random()` draws, one per generator pull.
-/

/-- One observable step of a `retry` call. -/
inductive Event (σ ε : Type) where
  | attempt (i : ℕ) : Event σ ε
  | emitRetries (name : String) (args : List σ) (numRetries : ℕ) : Event σ ε
  | emitThrottle (name : String) (args : List σ) (delayMs : ℚ) : Event σ ε
  | sleepCall (delayMs : ℚ) : Event σ ε
deriving DecidableEq

/-- Terminal outcome of a `retry` call: resolve with a value, reject with a
thrown error, or (never reached with sufficient fuel) out of fuel. -/
inductive RetryResult (ε α : Type) where
  | ok (a : α) : RetryResult ε α
  | err (e : ε) : RetryResult ε α
  | fuelOut : RetryResult ε α
deriving DecidableEq

/-- The `BackoffOptions` record; absent fields are `none`.
`sleepFunction` is modelled by the `sleepCall` trace event. -/
structure BackoffOptions (σ ε : Type) where
  maxRetries : Option ℤ := none
  maxDelayMs : Option ℚ := none
  minDelayMs : Option ℚ := none
  base : Option ℚ := none
  backoffFactor : Option ℚ := none
  predicate : Option (ε → List σ → Bool) := none
  fullJitter : JitterParam := JitterParam.undef

variable {σ ε α : Type}

/-- The failure classification in the catch block:
`if (!predicate || !predicate(err, args)) throw err` — a failure is retried
exactly when a predicate is present and approves it. -/
def shouldRetry (predicate : Option (ε → List σ → Bool)) (e : ε) (args : List σ) : Bool :=
  match predicate with
  | none => false
  | some p => p e args

/-- The body of `retry`'s `for`-loop, fuel-indexed (structural recursion);
`numRetries` is the attempt counter (starts at 1), `n` the generator pull
index (starts at 0).  Each iteration: invoke the target; on success emit
`'retries'` (if the context can emit) and resolve; on failure rethrow
unless the predicate approves; then increment the counter, throw the
recorded error if it exceeds `maxRetries`, else emit `'throttle'` (if the
context can emit), sleep for the pulled delay, and iterate. -/
def retryLoop (name : String) (args : List σ) (canEmit : Bool)
    (predicate : Option (ε → List σ → Bool)) (tf : ℕ → Except ε α)
    (delay : ℕ → ℚ) (maxRetries : ℤ) :
    ℕ → ℕ → ℕ → List (Event σ ε) × RetryResult ε α
  | 0, _, _ => ([], RetryResult.fuelOut)
  | fuel + 1, numRetries, n =>
    match tf n with
    | Except.ok a =>
        (Event.attempt (n + 1) ::
          (if canEmit then [Event.emitRetries name args numRetries] else []),
         RetryResult.ok a)
    | Except.error e =>
        if shouldRetry predicate e args = false then
          ([Event.attempt (n + 1)], RetryResult.err e)
        else if maxRetries < (numRetries : ℤ) + 1 then
          ([Event.attempt (n + 1)], RetryResult.err e)
        else
          let rest := retryLoop name args canEmit predicate tf delay maxRetries
            fuel (numRetries + 1) (n + 1)
          (Event.attempt (n + 1) ::
            ((if canEmit then [Event.emitThrottle name args (delay n)] else []) ++
              Event.sleepCall (delay n) :: rest.1),
           rest.2)

/-- The `retry` entry point: destructure the options with defaults
`base = 2`, `maxRetries = 1`, `backoffFactor = 50`, build the delay
sequence from `exponentialGenerator`, and run the loop from
`numRetries = 1`.  The fuel `maxRetries.toNat + 1` exceeds the largest
possible number of loop iterations. -/
def retry (opts : BackoffOptions σ ε) (name : String) (tf : ℕ → Except ε α)
    (canEmit : Bool) (args : List σ) (rand : ℕ → ℚ) :
    List (Event σ ε) × RetryResult ε α :=
  let maxRetries := opts.maxRetries.getD 1
  retryLoop name args canEmit opts.predicate tf
    (fun n => exponentialGenerator (opts.base.getD 2) (opts.backoffFactor.getD 50)
      opts.maxDelayMs opts.minDelayMs opts.fullJitter (rand n) n)
    maxRetries (maxRetries.toNat + 1) 1 0

/-- Number of target invocations recorded in a trace. -/
def countAttempts : List (Event σ ε) → ℕ
  | [] => 0
  | Event.attempt _ :: rest => countAttempts rest + 1
  | _ :: rest => countAttempts rest

/-- Number of `sleepFunction` calls recorded in a trace. -/
def countSleeps : List (Event σ ε) → ℕ
  | [] => 0
  | Event.sleepCall _ :: rest => countSleeps rest + 1
  | _ :: rest => countSleeps rest

/-- The delays carried by the `'throttle'` emissions of a trace, in order. -/
def throttleDelays : List (Event σ ε) → List ℚ
  | [] => []
  | Event.emitThrottle _ _ d :: rest => d :: throttleDelays rest
  | _ :: rest => throttleDelays rest

/-- The attempt counts carried by the `'retries'` emissions of a trace. -/
def retriesCounts : List (Event σ ε) → List ℕ
  | [] => []
  | Event.emitRetries _ _ k :: rest => k :: retriesCounts rest
  | _ :: rest => retriesCounts rest

end Backoff

namespace Backoff

/-- C4: the n-th value pulled from
`exponentialGenerator(base, factor, undefined, undefined, false)` equals
`factor * base ^ n` exactly: no clamping, no jitter, no rounding. -/
theorem c4_unclamped_exact (base factor r : ℚ) (n : ℕ) :
    exponentialGenerator base factor none none (JitterParam.bool false) r n
      = factor * base ^ n := by
  simp [exponentialGenerator, applyJitter, preJitterValue, effectiveMin,
    clampMax, clampMin, truthy]

/-- C5 counterexample: with `maxValue = 0` (a set value), the 0-th pre-jitter
value of `exponentialGenerator(2, 1, 0, undefined, _)` is `1`, which exceeds
the ceiling `0`: the claim that every set `maxValue` bounds the values fails. -/
theorem c5_counterexample :
    preJitterValue 2 1 (some 0) none 0 = 1 ∧ ¬ (preJitterValue 2 1 (some 0) none 0 ≤ 0) := by
  have h : preJitterValue 2 1 (some 0) none 0 = 1 := by
    simp [preJitterValue, clampMax, clampMin, effectiveMin, truthy]
  exact ⟨h, by rw [h]; norm_num⟩

/-- Helper: the floor clamp keeps a value below `c` provided any applied
(truthy) floor is itself at most `c`. -/
theorem clampMin_le {mv : Option ℚ} {v c : ℚ}
    (hfloor : ∀ m, mv = some m → m ≠ 0 → m ≤ c) (hv : v ≤ c) : clampMin mv v ≤ c := by
  rcases mv with _ | m
  · simpa [clampMin, truthy] using hv
  · by_cases hm : m = 0
    · simpa [clampMin, truthy, hm] using hv
    · simp only [clampMin, truthy]
      rw [if_pos (by simp [hm])]
      simpa using max_le (hfloor m rfl hm) hv

/-- Helper: with a truthy ceiling `mx`, the fixed-up floor (when truthy)
never exceeds `mx`. -/
theorem effectiveMin_some_le {mx mn m : ℚ} (hmx : mx ≠ 0)
    (hm : effectiveMin (some mx) (some mn) = some m) (hmne : m ≠ 0) : m ≤ mx := by
  by_cases hmn : mn = 0
  · rw [effectiveMin, if_neg (by simp [truthy, hmn])] at hm
    have h : mn = m := by simpa using hm
    exact absurd (h ▸ hmn) hmne
  · by_cases hlt : mx < mn
    · rw [effectiveMin, if_pos (by simp [truthy, hmn, hmx, hlt])] at hm
      have h : mx = m := by simpa using hm
      exact le_of_eq h.symm
    · rw [effectiveMin, if_neg (by simp [truthy, hlt])] at hm
      have h : mn = m := by simpa using hm
      exact h ▸ le_of_not_lt hlt

/-- C5 amended: for every configuration in which `maxValue` is set to a
nonzero (truthy) value, every pre-jitter value of `exponentialGenerator`
is at most `maxValue`. -/
theorem c5_maxValue_bounds (base factor mx : ℚ) (minValue : Option ℚ) (n : ℕ)
    (hmx : mx ≠ 0) :
    preJitterValue base factor (some mx) minValue n ≤ mx := by
  rw [preJitterValue]
  have hcm : clampMax (some mx) (factor * base ^ n) = min mx (factor * base ^ n) := by
    simp [clampMax, truthy, hmx]
  rw [hcm]
  apply clampMin_le _ (min_le_left _ _)
  intro m hm hmne
  rcases minValue with _ | mn
  · simp [effectiveMin, truthy] at hm
  · exact effectiveMin_some_le hmx hm hmne

/-- C5 witness: instantiating the amended bound at
`base = 2, factor = 1, maxValue = 3, n = 2`. -/
theorem c5_maxValue_bounds_witness :
    (3 : ℚ) ≠ 0 ∧ preJitterValue 2 1 (some 3) none 2 ≤ 3 :=
  ⟨by norm_num, c5_maxValue_bounds 2 1 3 none 2 (by norm_num)⟩

/-- C9: `maxValue = 0` and `minValue = 0` are each treated as absent bounds
(numeric truthiness, not an is-set check): with `maxValue = 0` the clamps
behave exactly as with `maxValue` undefined, likewise for `minValue = 0`;
concretely, `exponentialGenerator(2, 1, 0, undefined, _)` at pull 1 yields
`2`, exceeding the stated ceiling `0`. -/
theorem c9_zero_bounds_ignored (base factor : ℚ) (maxValue minValue : Option ℚ) (n : ℕ) :
    preJitterValue base factor (some 0) minValue n
        = preJitterValue base factor none minValue n
      ∧ preJitterValue base factor maxValue (some 0) n
        = preJitterValue base factor maxValue none n
      ∧ preJitterValue 2 1 (some 0) none 1 = 2
      ∧ ¬ ((2 : ℚ) ≤ 0) := by
  refine ⟨?_, ?_, ?_, by norm_num⟩
  · simp [preJitterValue, effectiveMin, clampMax, truthy]
  · simp [preJitterValue, effectiveMin, clampMin, truthy]
  · simp [preJitterValue, effectiveMin, clampMax, clampMin, truthy]

end Backoff

namespace Backoff

variable {σ ε α : Type}

/-- Helper: one unfolding of the loop in the failing-and-retrying case
(predicate always true, counter not yet past `maxRetries`). -/
theorem retryLoop_step (name : String) (args : List σ) (canEmit : Bool)
    (errs : ℕ → ε) (delay : ℕ → ℚ) (maxRetries : ℤ) (fuel numRetries n : ℕ)
    (hcond : ¬ maxRetries < (numRetries : ℤ) + 1) :
    retryLoop (α := α) name args canEmit (some fun _ _ => true)
        (fun k => Except.error (errs k)) delay maxRetries (fuel + 1) numRetries n
      = (Event.attempt (n + 1) ::
          ((if canEmit then [Event.emitThrottle name args (delay n)] else []) ++
            Event.sleepCall (delay n) ::
              (retryLoop (α := α) name args canEmit (some fun _ _ => true)
                (fun k => Except.error (errs k)) delay maxRetries fuel
                (numRetries + 1) (n + 1)).1),
         (retryLoop (α := α) name args canEmit (some fun _ _ => true)
            (fun k => Except.error (errs k)) delay maxRetries fuel
            (numRetries + 1) (n + 1)).2) := by
  rw [retryLoop]
  simp [shouldRetry, hcond]

/-- Helper: with an always-failing target and an always-approving predicate,
the loop started at counter `numRetries` performs `d + 1` further attempts
(`d = (maxRetries - numRetries).toNat`) and terminates by throwing the
error of the last attempt made. -/
theorem retryLoop_alwaysFail (name : String) (args : List σ) (canEmit : Bool)
    (errs : ℕ → ε) (delay : ℕ → ℚ) (maxRetries : ℤ) :
    ∀ (d fuel numRetries n : ℕ), d + 1 ≤ fuel → (maxRetries - numRetries).toNat = d →
      (retryLoop (α := α) name args canEmit (some fun _ _ => true)
          (fun k => Except.error (errs k)) delay maxRetries fuel numRetries n).2
        = RetryResult.err (errs (n + d))
      ∧ countAttempts (retryLoop (α := α) name args canEmit (some fun _ _ => true)
          (fun k => Except.error (errs k)) delay maxRetries fuel numRetries n).1 = d + 1 := by
  intro d
  induction d with
  | zero =>
    intro fuel numRetries n hfuel hd
    cases fuel with
    | zero => omega
    | succ fuel =>
      have hcond : maxRetries < (numRetries : ℤ) + 1 := by omega
      simp [retryLoop, shouldRetry, hcond, countAttempts]
  | succ d ih =>
    intro fuel numRetries n hfuel hd
    cases fuel with
    | zero => omega
    | succ fuel =>
      have hcond : ¬ maxRetries < (numRetries : ℤ) + 1 := by omega
      have ihh := ih fuel (numRetries + 1) (n + 1) (by omega) (by omega)
      rw [retryLoop_step name args canEmit errs delay maxRetries fuel numRetries n hcond]
      have hn : n + 1 + d = n + (d + 1) := by omega
      refine ⟨by simpa [hn] using ihh.1, ?_⟩
      cases canEmit <;> simp [countAttempts, ihh.2]

/-- C1: for a target failing on every attempt under an always-approving
predicate, once the attempt counter exceeds `maxRetries` the loop throws
the very error recorded on the last attempt made (attempt number
`(maxRetries - 1).toNat + 1`) — not a synthetic wrapping error. -/
theorem c1_exhausted_throws_last_error (m : ℤ) (mxD mnD b f : Option ℚ)
    (j : JitterParam) (name : String) (args : List σ) (canEmit : Bool)
    (errs : ℕ → ε) (rand : ℕ → ℚ) :
    (retry (α := α)
        { maxRetries := some m, maxDelayMs := mxD, minDelayMs := mnD, base := b,
          backoffFactor := f, predicate := some fun _ _ => true, fullJitter := j }
        name (fun k => Except.error (errs k)) canEmit args rand).2
      = RetryResult.err (errs ((m - 1).toNat)) := by
  have h := retryLoop_alwaysFail (α := α) name args canEmit errs
    (fun n => exponentialGenerator (b.getD 2) (f.getD 50) mxD mnD j (rand n) n) m
    ((m - 1).toNat) (m.toNat + 1) 1 0 (by omega) (by omega)
  simpa [retry] using h.1

/-- C2: an always-failing target with an always-true predicate and
`maxRetries = m ≥ 1` is invoked exactly `m` times in total (first attempt
plus retries) before the failure is propagated. -/
theorem c2_total_attempts_eq_maxRetries (m : ℤ) (mxD mnD b f : Option ℚ)
    (j : JitterParam) (name : String) (args : List σ) (canEmit : Bool)
    (errs : ℕ → ε) (rand : ℕ → ℚ) (hm : 1 ≤ m) :
    countAttempts (retry (α := α)
        { maxRetries := some m, maxDelayMs := mxD, minDelayMs := mnD, base := b,
          backoffFactor := f, predicate := some fun _ _ => true, fullJitter := j }
        name (fun k => Except.error (errs k)) canEmit args rand).1
      = m.toNat := by
  have h := retryLoop_alwaysFail (α := α) name args canEmit errs
    (fun n => exponentialGenerator (b.getD 2) (f.getD 50) mxD mnD j (rand n) n) m
    ((m - 1).toNat) (m.toNat + 1) 1 0 (by omega) (by omega)
  have h2 := h.2
  rw [retry]
  simp only [Option.getD_some] at h2 ⊢
  rw [h2]
  omega

/-- C2 witness: with `maxRetries = 2`, an always-failing target is invoked
exactly twice. -/
theorem c2_total_attempts_witness :
    1 ≤ (2 : ℤ) ∧ countAttempts (retry (α := Unit)
        { maxRetries := some (2 : ℤ), maxDelayMs := none, minDelayMs := none, base := none,
          backoffFactor := none, predicate := some fun _ _ => true,
          fullJitter := JitterParam.undef }
        "f" (fun k => Except.error ((fun _ => ()) k)) false ([] : List Unit)
        (fun _ => 0)).1 = (2 : ℤ).toNat :=
  ⟨by norm_num, c2_total_attempts_eq_maxRetries 2 none none none none JitterParam.undef
    "f" [] false (fun _ => ()) (fun _ => 0) (by norm_num)⟩

end Backoff

namespace Backoff

variable {σ ε α : Type}

/-- Helper: when the first attempt fails and the predicate declines (or is
absent), `retry`'s observable behaviour is exactly one target invocation
followed by the unchanged error — nothing else in the trace. -/
theorem retry_noRetry_trace (opts : BackoffOptions σ ε) (name : String)
    (tf : ℕ → Except ε α) (canEmit : Bool) (args : List σ) (rand : ℕ → ℚ) (e : ε)
    (htf : tf 0 = Except.error e)
    (hpred : shouldRetry opts.predicate e args = false) :
    retry opts name tf canEmit args rand = ([Event.attempt 1], RetryResult.err e) := by
  rw [retry]
  simp only [retryLoop, htf, hpred]
  simp

/-- C3: with no predicate supplied, or a predicate rejecting the observed
error, the first failure is propagated immediately and unchanged: the
target is invoked exactly once (trace `[attempt 1]`) and the terminal
outcome is that very error. -/
theorem c3_no_predicate_no_retry (opts : BackoffOptions σ ε) (name : String)
    (tf : ℕ → Except ε α) (canEmit : Bool) (args : List σ) (rand : ℕ → ℚ) (e : ε)
    (htf : tf 0 = Except.error e)
    (hpred : shouldRetry opts.predicate e args = false) :
    retry opts name tf canEmit args rand = ([Event.attempt 1], RetryResult.err e) :=
  retry_noRetry_trace opts name tf canEmit args rand e htf hpred

/-- C3 witness: a target failing with error `7` under empty options
(no predicate) is invoked once and rejects with `7`. -/
theorem c3_no_predicate_no_retry_witness :
    (fun _ : ℕ => (Except.error 7 : Except ℕ ℕ)) 0 = Except.error 7
    ∧ shouldRetry (BackoffOptions.predicate ({} : BackoffOptions Unit ℕ)) 7 [] = false
    ∧ retry (α := ℕ) ({} : BackoffOptions Unit ℕ) "f" (fun _ => Except.error 7) true [] (fun _ => 0)
        = ([Event.attempt 1], RetryResult.err 7) :=
  ⟨rfl, rfl,
    c3_no_predicate_no_retry {} "f" (fun _ => Except.error 7) true [] (fun _ => 0) 7 rfl rfl⟩

/-- C10: on a non-retried failure, even with an emit-capable context,
`retry` throws before the sleep or notification steps: no `sleepFunction`
call, no `'throttle'` and no `'retries'` emission, exactly one target
invocation, and the unmodified error. -/
theorem c10_no_retry_no_side_effects (opts : BackoffOptions σ ε) (name : String)
    (tf : ℕ → Except ε α) (args : List σ) (rand : ℕ → ℚ) (e : ε)
    (htf : tf 0 = Except.error e)
    (hpred : shouldRetry opts.predicate e args = false) :
    countSleeps (retry opts name tf true args rand).1 = 0
    ∧ throttleDelays (retry opts name tf true args rand).1 = []
    ∧ retriesCounts (retry opts name tf true args rand).1 = []
    ∧ countAttempts (retry opts name tf true args rand).1 = 1
    ∧ (retry opts name tf true args rand).2 = RetryResult.err e := by
  rw [retry_noRetry_trace opts name tf true args rand e htf hpred]
  refine ⟨?_, ?_, ?_, ?_, rfl⟩ <;> simp [countSleeps, throttleDelays, retriesCounts, countAttempts]

/-- C10 witness: concrete non-retried failure (predicate present but always
false) with an emit-capable context. -/
theorem c10_no_retry_no_side_effects_witness :
    (fun _ : ℕ => (Except.error 7 : Except ℕ ℕ)) 0 = Except.error 7
    ∧ shouldRetry (BackoffOptions.predicate
        ({ predicate := some fun _ _ => false } : BackoffOptions Unit ℕ)) 7 [] = false
    ∧ (countSleeps (retry (α := ℕ) ({ predicate := some fun _ _ => false } : BackoffOptions Unit ℕ)
          "f" (fun _ => Except.error 7) true [] (fun _ => 0)).1 = 0
        ∧ throttleDelays (retry (α := ℕ) ({ predicate := some fun _ _ => false } : BackoffOptions Unit ℕ)
          "f" (fun _ => Except.error 7) true [] (fun _ => 0)).1 = []
        ∧ retriesCounts (retry (α := ℕ) ({ predicate := some fun _ _ => false } : BackoffOptions Unit ℕ)
          "f" (fun _ => Except.error 7) true [] (fun _ => 0)).1 = []
        ∧ countAttempts (retry (α := ℕ) ({ predicate := some fun _ _ => false } : BackoffOptions Unit ℕ)
          "f" (fun _ => Except.error 7) true [] (fun _ => 0)).1 = 1
        ∧ (retry (α := ℕ) ({ predicate := some fun _ _ => false } : BackoffOptions Unit ℕ)
          "f" (fun _ => Except.error 7) true [] (fun _ => 0)).2 = RetryResult.err 7) :=
  ⟨rfl, rfl,
    c10_no_retry_no_side_effects { predicate := some fun _ _ => false } "f"
      (fun _ => Except.error 7) [] (fun _ => 0) 7 rfl rfl⟩

end Backoff

namespace Backoff

variable {σ ε α : Type}

/-- Helper: a run whose target fails on attempts 1 and 2 (both retried,
`maxRetries ≥ 3`... more precisely not exceeded) and succeeds on attempt 3,
with an emit-capable context: the full observable trace. -/
theorem retryLoop_twoFail_thenOk (name : String) (args : List σ)
    (pred : Option (ε → List σ → Bool)) (tf : ℕ → Except ε α) (D : ℕ → ℚ) (mR : ℤ)
    (e0 e1 : ε) (a : α) (fuel : ℕ)
    (htf0 : tf 0 = Except.error e0) (htf1 : tf 1 = Except.error e1)
    (htf2 : tf 2 = Except.ok a)
    (hp0 : shouldRetry pred e0 args = true) (hp1 : shouldRetry pred e1 args = true)
    (hc1 : ¬ mR < 2) (hc2 : ¬ mR < 3) :
    retryLoop name args true pred tf D mR (fuel + 1 + 1 + 1) 1 0
      = ([Event.attempt 1, Event.emitThrottle name args (D 0), Event.sleepCall (D 0),
          Event.attempt 2, Event.emitThrottle name args (D 1), Event.sleepCall (D 1),
          Event.attempt 3, Event.emitRetries name args 3], RetryResult.ok a) := by
  simp [retryLoop, htf0, htf1, htf2, hp0, hp1, hc1, hc2]

/-- C8: a target failing on its first two attempts and succeeding on the
third, with `maxRetries = 3`, an always-approving predicate and an
emit-capable context: `retry` resolves with the third attempt's result,
calls the sleep function exactly twice, emits `'throttle'` exactly twice
with strictly increasing delays (50 then 100), and emits `'retries'`
exactly once with attempt count 3. -/
theorem c8_two_failures_then_success (e0 e1 : ε) (a : α) (name : String)
    (args : List σ) (rand : ℕ → ℚ) :
    (retry (α := α) { maxRetries := some 3, predicate := some fun _ _ => true } name
        (fun k => if k = 0 then Except.error e0 else if k = 1 then Except.error e1
          else Except.ok a) true args rand).2 = RetryResult.ok a
    ∧ countSleeps (retry (α := α) { maxRetries := some 3, predicate := some fun _ _ => true }
        name (fun k => if k = 0 then Except.error e0 else if k = 1 then Except.error e1
          else Except.ok a) true args rand).1 = 2
    ∧ throttleDelays (retry (α := α) { maxRetries := some 3, predicate := some fun _ _ => true }
        name (fun k => if k = 0 then Except.error e0 else if k = 1 then Except.error e1
          else Except.ok a) true args rand).1 = [50, 100]
    ∧ (50 : ℚ) < 100
    ∧ retriesCounts (retry (α := α) { maxRetries := some 3, predicate := some fun _ _ => true }
        name (fun k => if k = 0 then Except.error e0 else if k = 1 then Except.error e1
          else Except.ok a) true args rand).1 = [3] := by
  have htrace : retry (α := α) { maxRetries := some 3, predicate := some fun _ _ => true }
      name (fun k => if k = 0 then Except.error e0 else if k = 1 then Except.error e1
        else Except.ok a) true args rand
      = ([Event.attempt 1, Event.emitThrottle name args 50, Event.sleepCall 50,
          Event.attempt 2, Event.emitThrottle name args 100, Event.sleepCall 100,
          Event.attempt 3, Event.emitRetries name args 3], RetryResult.ok a) := by
    rw [retry]
    show retryLoop name args true (some fun _ _ => true)
        (fun k => if k = 0 then Except.error e0 else if k = 1 then Except.error e1
          else Except.ok a)
        (fun n => exponentialGenerator ((none : Option ℚ).getD 2) ((none : Option ℚ).getD 50)
          none none JitterParam.undef (rand n) n) 3 (1 + 1 + 1 + 1) 1 0 = _
    rw [retryLoop_twoFail_thenOk name args (some fun _ _ => true)
      (fun k => if k = 0 then Except.error e0 else if k = 1 then Except.error e1
        else Except.ok a)
      (fun n => exponentialGenerator ((none : Option ℚ).getD 2) ((none : Option ℚ).getD 50)
        none none JitterParam.undef (rand n) n)
      3 e0 e1 a 1 rfl rfl rfl rfl rfl (by decide) (by decide)]
    norm_num [exponentialGenerator, applyJitter, preJitterValue, clampMax, clampMin,
      effectiveMin, truthy]
  rw [htrace]
  refine ⟨rfl, ?_, ?_, by norm_num, ?_⟩ <;>
    simp [countSleeps, throttleDelays, retriesCounts]

end Backoff

namespace Backoff

/-- C6 counterexample: with `maxValue = 0` and `minValue = 5` (both set and
`minValue > maxValue`), the fixup does not fire (`maxValue` is falsy), so
the effective floor stays `5` — not `maxValue` — and the 0-th pre-jitter
value is `5`, not bounded by `maxValue = 0`. -/
theorem c6_counterexample :
    effectiveMin (some 0) (some 5) = some 5
    ∧ preJitterValue 2 1 (some 0) (some 5) 0 = 5
    ∧ ¬ (preJitterValue 2 1 (some 0) (some 5) 0 ≤ 0) := by
  have h1 : effectiveMin (some 0) (some 5) = some 5 := by
    simp [effectiveMin, truthy]
  have h2 : preJitterValue 2 1 (some 0) (some 5) 0 = 5 := by
    rw [preJitterValue, h1]
    simp only [clampMax, clampMin, truthy]
    norm_num [max_eq_left]
  exact ⟨h1, h2, by rw [h2]; norm_num⟩

/-- C6 amended: when `minValue` and `maxValue` are both set to nonzero
(truthy) values with `minValue > maxValue`, the effective floor is reduced
to `maxValue`, and every pre-jitter value is bounded above by `maxValue`. -/
theorem c6_max_wins_nonzero (base factor mx mn : ℚ) (n : ℕ)
    (hmx : mx ≠ 0) (hmn : mn ≠ 0) (hlt : mx < mn) :
    effectiveMin (some mx) (some mn) = some mx
    ∧ preJitterValue base factor (some mx) (some mn) n ≤ mx := by
  have hcond : (truthy (some mn) && truthy (some mx)
      && decide ((some mx).getD 0 < (some mn).getD 0)) = true := by
    simp [truthy, hmn, hmx, hlt]
  have hem : effectiveMin (some mx) (some mn) = some mx := by
    rw [effectiveMin, if_pos hcond]
  refine ⟨hem, ?_⟩
  rw [preJitterValue, hem]
  have hcm : clampMax (some mx) (factor * base ^ n) = min mx (factor * base ^ n) := by
    simp [clampMax, truthy, hmx]
  rw [hcm, clampMin, if_pos (by simp [truthy, hmx])]
  simp [max_le_iff, min_le_left]

/-- C6 witness: instantiating the amended claim at
`maxValue = 3, minValue = 5, base = 2, factor = 1, n = 0`. -/
theorem c6_max_wins_nonzero_witness :
    (3 : ℚ) ≠ 0 ∧ (5 : ℚ) ≠ 0 ∧ (3 : ℚ) < 5
    ∧ (effectiveMin (some 3) (some 5) = some 3
        ∧ preJitterValue 2 1 (some 3) (some 5) 0 ≤ 3) :=
  ⟨by norm_num, by norm_num, by norm_num,
    c6_max_wins_nonzero 2 1 3 5 0 (by norm_num) (by norm_num) (by norm_num)⟩

/-- Helper: `Math.round` modelled as `⌊x + 1/2⌋` is monotone. -/
theorem jsRound_mono {x y : ℚ} (h : x ≤ y) : jsRound x ≤ jsRound y := by
  unfold jsRound
  exact_mod_cast Int.floor_mono (by linarith)

/-- Helper: bounds for the partial-jitter step on a nonnegative value. -/
theorem applyJitter_num_bounds {j r v : ℚ} (hj0 : 0 ≤ j) (hj1 : j ≤ 1)
    (hr0 : 0 ≤ r) (hr1 : r ≤ 1) (hv : 0 ≤ v) :
    jsRound ((1 - j) * v) ≤ applyJitter (JitterParam.num j) r v
    ∧ applyJitter (JitterParam.num j) r v ≤ jsRound v := by
  have hjr : j * r ≤ j := mul_le_of_le_one_right hj0 hr1
  have hjr0 : 0 ≤ j * r := mul_nonneg hj0 hr0
  simp only [applyJitter]
  rw [if_pos ⟨hj0, hj1⟩]
  constructor
  · exact jsRound_mono (mul_le_mul_of_nonneg_right (by linarith) hv)
  · have h : (1 - j * r) * v ≤ 1 * v := mul_le_mul_of_nonneg_right (by linarith) hv
    rw [one_mul] at h
    exact jsRound_mono h

/-- Helper: partial jitter with `j = 0` rounds the value and does nothing
else. -/
theorem applyJitter_num_zero (r v : ℚ) :
    applyJitter (JitterParam.num 0) r v = jsRound v := by
  simp only [applyJitter]
  rw [if_pos ⟨le_refl 0, zero_le_one⟩, zero_mul, sub_zero, one_mul]

/-- C7 counterexample: with `factor = 5/2` the deterministic value at pull 0
is `5/2`; numeric jitter `j = 1/2` with random draw `r = 0` yields
`round(5/2) = 3`, which exceeds the deterministic value — so the claimed
interval `[round((1-j)·det), det]` does not contain every produced value
(and `j = 0` likewise yields `3 ≠ 5/2`). -/
theorem c7_counterexample :
    preJitterValue 2 (5/2) none none 0 = 5/2
    ∧ exponentialGenerator 2 (5/2) none none (JitterParam.num (1/2)) 0 0 = 3
    ∧ ¬ (exponentialGenerator 2 (5/2) none none (JitterParam.num (1/2)) 0 0
          ≤ preJitterValue 2 (5/2) none none 0) := by
  have h1 : preJitterValue 2 (5/2) none none 0 = 5/2 := by
    simp [preJitterValue, clampMax, clampMin, effectiveMin, truthy]
  have h2 : exponentialGenerator 2 (5/2) none none (JitterParam.num (1/2)) 0 0 = 3 := by
    rw [exponentialGenerator, h1]
    simp only [applyJitter]
    rw [if_pos (by norm_num)]
    norm_num [jsRound]
  exact ⟨h1, h2, by rw [h1, h2]; norm_num⟩

/-- C7 amended: for numeric jitter `j ∈ [0,1]`, any draw `r ∈ [0,1]` and a
nonnegative deterministic (clamped pre-jitter) value, every produced value
lies in `[round((1-j)·det), round(det)]`; and `j = 0` yields `round(det)`
exactly (which equals `det` whenever `det` is an integer). -/
theorem c7_partial_jitter_bounds (base factor : ℚ) (maxValue minValue : Option ℚ)
    (j r : ℚ) (n : ℕ)
    (hj0 : 0 ≤ j) (hj1 : j ≤ 1) (hr0 : 0 ≤ r) (hr1 : r ≤ 1)
    (hdet : 0 ≤ preJitterValue base factor maxValue minValue n) :
    (jsRound ((1 - j) * preJitterValue base factor maxValue minValue n)
        ≤ exponentialGenerator base factor maxValue minValue (JitterParam.num j) r n
      ∧ exponentialGenerator base factor maxValue minValue (JitterParam.num j) r n
        ≤ jsRound (preJitterValue base factor maxValue minValue n))
    ∧ exponentialGenerator base factor maxValue minValue (JitterParam.num 0) r n
        = jsRound (preJitterValue base factor maxValue minValue n) :=
  ⟨applyJitter_num_bounds hj0 hj1 hr0 hr1 hdet, applyJitter_num_zero r _⟩

/-- C7 witness: instantiating the amended bounds at
`base = 2, factor = 1, j = 1/2, r = 1, n = 0`. -/
theorem c7_partial_jitter_bounds_witness :
    (0 : ℚ) ≤ 1/2 ∧ (1/2 : ℚ) ≤ 1 ∧ (0 : ℚ) ≤ 1 ∧ (1 : ℚ) ≤ 1
    ∧ 0 ≤ preJitterValue 2 1 none none 0
    ∧ ((jsRound ((1 - 1/2) * preJitterValue 2 1 none none 0)
          ≤ exponentialGenerator 2 1 none none (JitterParam.num (1/2)) 1 0
        ∧ exponentialGenerator 2 1 none none (JitterParam.num (1/2)) 1 0
          ≤ jsRound (preJitterValue 2 1 none none 0))
        ∧ exponentialGenerator 2 1 none none (JitterParam.num 0) 1 0
          = jsRound (preJitterValue 2 1 none none 0)) :=
  ⟨by norm_num, by norm_num, by norm_num, by norm_num,
    by norm_num [preJitterValue, clampMax, clampMin, effectiveMin, truthy],
    c7_partial_jitter_bounds 2 1 none none (1/2) 1 0 (by norm_num) (by norm_num)
      (by norm_num) (by norm_num)
      (by norm_num [preJitterValue, clampMax, clampMin, effectiveMin, truthy])⟩

end Backoff
